import Mathlib

/-!
Formal model of the Oak HPKE sender context
(`cc/crypto/hpke/sender_context.cc`, namespace `oak::crypto`).

The file embeds the sender-side logic as pure Lean functions.  The
BoringSSL primitives (`EVP_HPKE_CTX_new`, `EVP_HPKE_CTX_setup_sender`,
`EVP_HPKE_CTX_seal`, `EVP_HPKE_CTX_export`, `EVP_AEAD_CTX_new`,
`EVP_AEAD_CTX_open`) are external collaborators of the repository: they
are modelled parametrically by a `PrimEnv` environment that supplies
their behaviour, while the wrapper functions below encode the parts of
the BoringSSL contract that the sender code relies on (output-buffer
bounds, sequence-counter advancement, RFC 9180 nonce derivation, and
the default-tag-length convention of `EVP_AEAD_CTX_new`).
-/

namespace OakCrypto

/-- Byte strings are modelled as lists of naturals. -/
abbrev Bytes := List Nat

/-- The two `absl::Status` error kinds used by the sender code. -/
inductive Status where
  | invalidArgument (msg : String)
  | aborted (msg : String)
  deriving DecidableEq, Repr

/-- Counterpart of `absl::StatusOr`. -/
abbrev StatusOr (α : Type) := Except Status α

/-- Trace events recording each call into the primitive crypto library. -/
inductive PrimEvent where
  | ctxNew
  | setupSender (pk info : Bytes)
  | exportSecret (len : Nat) (label : Bytes)
  | aeadCtxNew (key : Bytes) (tagLen : Nat)
  | aeadOpen (nonce ct ad : Bytes)
  deriving DecidableEq, Repr

/-- Model of an established BoringSSL `EVP_HPKE_CTX`.  After
`EVP_HPKE_CTX_setup_sender` succeeds the context holds the AEAD key
schedule (abstracted as `sealFn`, taking the per-message nonce), the
RFC 9180 base nonce, the exporter secret (abstracted as `exportFn`,
mapping a context label to the labelled secret stream), the suite's
maximal seal overhead, and the private sequence counter `seq`. -/
structure HpkeCtx where
  baseNonce : Nat
  seq : Nat
  maxOverhead : Nat
  sealFn : Nat → Bytes → Bytes → Option Bytes
  exportFn : Bytes → Option (Nat → Nat)

/-- Model of a BoringSSL `EVP_AEAD` algorithm: its fixed parameters plus
its behaviour (keyed open function and context-allocation outcome). -/
structure AeadAlg where
  keyLen : Nat
  nonceLen : Nat
  maxTagLen : Nat
  newCtxOk : Bytes → Bool
  openWith : Bytes → Bytes → Bytes → Bytes → Option Bytes

/-- Model of an allocated `EVP_AEAD_CTX`: the open behaviour specialised
to the key, plus the effective tag length and the nonce length. -/
structure AeadCtx where
  openFn : Bytes → Bytes → Bytes → Option Bytes
  tagLen : Nat
  nonceLen : Nat

/-- Behavioural environment for the primitive library: the outcomes of
the allocation and key-encapsulation calls, and the AES-256-GCM
behaviour. -/
structure PrimEnv where
  ctxNewOk : Bool
  encapsulate : Bytes → Bytes → Option (Bytes × HpkeCtx)
  aeadNewOk : Bytes → Bool
  aeadOpenWith : Bytes → Bytes → Bytes → Bytes → Option Bytes

/-- `EVP_HPKE_MAX_ENC_LENGTH` from BoringSSL `hpke.h`: capacity of the
encapsulated-key output buffer. -/
def EVP_HPKE_MAX_ENC_LENGTH : Nat := 64

/-- Oak uses AES-256-GCM AEAD encryption: 32-byte key (RFC 9180). -/
def kAeadAlgorithmKeySizeBytes : Nat := 32

/-- AES-256-GCM nonce size: 12 bytes (RFC 9180). -/
def kAeadNonceSizeBytes : Nat := 12

/-- `EVP_AEAD_DEFAULT_TAG_LENGTH` from BoringSSL `aead.h`: the value `0`
passed as `tag_len` selects the algorithm's default (full) tag length;
it does not request a zero-length tag. -/
def EVP_AEAD_DEFAULT_TAG_LENGTH : Nat := 0

/-- Full AES-GCM authentication-tag size: 16 bytes. -/
def kAesGcmFullTagSizeBytes : Nat := 16

/-- The AES-256-GCM algorithm handle,
`EVP_HPKE_AEAD_aead(EVP_hpke_aes_256_gcm())`, with its behaviour drawn
from the environment. -/
def EVP_hpke_aes_256_gcm (env : PrimEnv) : AeadAlg :=
  { keyLen := kAeadAlgorithmKeySizeBytes
    nonceLen := kAeadNonceSizeBytes
    maxTagLen := kAesGcmFullTagSizeBytes
    newCtxOk := env.aeadNewOk
    openWith := env.aeadOpenWith }

/-- Writing a primitive's output into the front of a caller-allocated
buffer (`out`-pointer discipline): the first `src.length` bytes are
overwritten, the tail keeps the buffer's previous contents. -/
def writeBytes (buf src : Bytes) : Bytes := src ++ buf.drop src.length

/-- `EVP_HPKE_CTX_setup_sender`: performs the X25519 key encapsulation
with the given recipient public key and info string.  On success the
encapsulated key must fit the caller's `max_enc` buffer and the
freshly established context has its sequence counter at zero. -/
def EVP_HPKE_CTX_setup_sender (env : PrimEnv) (max_enc : Nat) (pk info : Bytes) :
    Option (Bytes × HpkeCtx) :=
  match env.encapsulate pk info with
  | none => none
  | some (enc, hctx) =>
      if enc.length ≤ max_enc then some (enc, { hctx with seq := 0 }) else none

/-- `EVP_HPKE_CTX_export`: derives `len` bytes of labelled exporter
secret.  Exporting does not touch the sealing state: no updated context
is returned because no field of the context changes. -/
def EVP_HPKE_CTX_export (hctx : HpkeCtx) (len : Nat) (label : Bytes) : Option Bytes :=
  match hctx.exportFn label with
  | none => none
  | some stream => some ((List.range len).map stream)

/-- `EVP_HPKE_CTX_max_overhead`. -/
def EVP_HPKE_CTX_max_overhead (hctx : HpkeCtx) : Nat := hctx.maxOverhead

/-- `EVP_HPKE_CTX_seal`: seals with the RFC 9180 per-message nonce
`base_nonce XOR seq`, requires the output to fit the caller's buffer,
fails when the 64-bit sequence counter is exhausted, and advances `seq`
by one on success. -/
def EVP_HPKE_CTX_seal (hctx : HpkeCtx) (max_out_len : Nat) (pt ad : Bytes) :
    Option (Bytes × HpkeCtx) :=
  if hctx.seq + 1 < 2 ^ 64 then
    match hctx.sealFn (Nat.xor hctx.baseNonce hctx.seq) pt ad with
    | none => none
    | some ct =>
        if ct.length ≤ max_out_len then some (ct, { hctx with seq := hctx.seq + 1 })
        else none
  else none

/-- `EVP_AEAD_CTX_new`: fails on a wrong key length, a requested tag
length beyond the algorithm's maximum, or an allocation failure;
`tag_len = 0` (`EVP_AEAD_DEFAULT_TAG_LENGTH`) selects the default,
full-length tag. -/
def EVP_AEAD_CTX_new (alg : AeadAlg) (key : Bytes) (key_len tag_len : Nat) :
    Option AeadCtx :=
  if key_len = alg.keyLen ∧ key.length = alg.keyLen ∧
      (tag_len = EVP_AEAD_DEFAULT_TAG_LENGTH ∨ tag_len ≤ alg.maxTagLen) ∧
      alg.newCtxOk key = true then
    some { openFn := alg.openWith key
           tagLen :=
             if tag_len = EVP_AEAD_DEFAULT_TAG_LENGTH then alg.maxTagLen else tag_len
           nonceLen := alg.nonceLen }
  else none

/-- `EVP_AEAD_CTX_open`: authenticated decryption with an explicit
nonce; fails on a wrong nonce length, on authentication failure, or
when the plaintext would not fit the caller's buffer. -/
def EVP_AEAD_CTX_open (actx : AeadCtx) (max_out_len : Nat) (nonce ct ad : Bytes) :
    Option Bytes :=
  if nonce.length = actx.nonceLen then
    match actx.openFn nonce ct ad with
    | none => none
    | some pt => if pt.length ≤ max_out_len then some pt else none
  else none

/-- `KeyInfo` from `sender_context.h`: a byte buffer plus used length. -/
structure KeyInfo where
  key_bytes : Bytes
  key_size : Nat

/-- `SenderRequestContext`: owns the established HPKE context. -/
structure SenderRequestContext where
  hpke_context : HpkeCtx

/-- `SenderResponseContext`: owns the response AEAD context and the
single fixed response nonce. -/
structure SenderResponseContext where
  aead_response_context : AeadCtx
  response_nonce : Bytes

/-- `SenderContext`: the encapsulated public key plus both contexts. -/
structure SenderContext where
  encap_public_key : Bytes
  sender_request_context : SenderRequestContext
  sender_response_context : SenderResponseContext

/-- `SenderRequestContext::Seal` (`sender_context.cc` lines 36-59):
computes `max_out_len` as the AEAD overhead plus the plaintext length,
allocates a buffer of that size, calls `EVP_HPKE_CTX_seal`, and on
success resizes the buffer to the written length.  The updated context
(the mutated `hpke_context_` member) is returned alongside the
status. -/
def SenderRequestContext.Seal (rctx : SenderRequestContext)
    (plaintext associated_data : Bytes) :
    StatusOr Bytes × SenderRequestContext :=
  let max_out_len := EVP_HPKE_CTX_max_overhead rctx.hpke_context + plaintext.length
  let ciphertext_bytes : Bytes := List.replicate max_out_len 0
  match EVP_HPKE_CTX_seal rctx.hpke_context max_out_len plaintext associated_data with
  | none => (.error (.aborted "Failed to seal request"), rctx)
  | some (ct, hctx2) =>
      (.ok ((writeBytes ciphertext_bytes ct).take ct.length), { hpke_context := hctx2 })

/-- The fixed export label `"response_key"` as bytes. -/
def responseKeyLabel : Bytes := "response_key".data.map Char.toNat

/-- The fixed export label `"response_nonce"` as bytes. -/
def responseNonceLabel : Bytes := "response_nonce".data.map Char.toNat

/-- `SenderResponseContext::Open` (`sender_context.cc` lines 63-91):
rejects an empty ciphertext, otherwise allocates a plaintext buffer of
the ciphertext's length and decrypts with the stored nonce.  The call
returns the status, the (unchanged) context object, and the trace of
AEAD-primitive invocations it made. -/
def SenderResponseContext.Open (sctx : SenderResponseContext)
    (ciphertext associated_data : Bytes) :
    StatusOr Bytes × SenderResponseContext × List PrimEvent :=
  if ciphertext.length = 0 then
    (.error (.invalidArgument "No ciphertext was provided."), sctx, [])
  else
    let plaintext_bytes : Bytes := List.replicate ciphertext.length 0
    match EVP_AEAD_CTX_open sctx.aead_response_context ciphertext.length
        sctx.response_nonce ciphertext associated_data with
    | none =>
        (.error (.aborted "Unable to decrypt response message"), sctx,
          [.aeadOpen sctx.response_nonce ciphertext associated_data])
    | some pt =>
        (.ok ((writeBytes plaintext_bytes pt).take pt.length), sctx,
          [.aeadOpen sctx.response_nonce ciphertext associated_data])

/-- The five `Aborted` failure messages of `SetUpBaseSender`, in the
order of the failure points they report. -/
def kSetupAbortMessages : List String :=
  ["Unable to generate HPKE sender context",
   "Unable to setup sender context.",
   "Unable to export client response key.",
   "Unable to generate AEAD response context.",
   "Unable to export client response nonce."]

/-- `SetUpBaseSender` (`sender_context.cc` lines 97-190), instrumented
with the trace of primitive-library calls it performs: checks the
recipient key for emptiness, allocates the HPKE context, runs key
encapsulation, truncates the encapsulated key to the reported length,
exports the 32-byte response key, builds the response AEAD context
from it with the default tag length, exports the 12-byte response
nonce, and bundles everything into a `SenderContext`. -/
def SetUpBaseSenderTr (env : PrimEnv) (serialized_recipient_public_key info : Bytes) :
    StatusOr SenderContext × List PrimEvent :=
  let encap_key_buf : Bytes := List.replicate EVP_HPKE_MAX_ENC_LENGTH 0
  if serialized_recipient_public_key.length = 0 then
    (.error (.invalidArgument "No key was provided."), [])
  else if env.ctxNewOk = false then
    (.error (.aborted "Unable to generate HPKE sender context"), [.ctxNew])
  else
    match EVP_HPKE_CTX_setup_sender env encap_key_buf.length
        serialized_recipient_public_key info with
    | none =>
        (.error (.aborted "Unable to setup sender context."),
          [.ctxNew, .setupSender serialized_recipient_public_key info])
    | some (enc, hpke_sender_context) =>
        let encap_public_key_info : KeyInfo :=
          { key_bytes := writeBytes encap_key_buf enc, key_size := enc.length }
        let encap_public_key :=
          encap_public_key_info.key_bytes.take encap_public_key_info.key_size
        match EVP_HPKE_CTX_export hpke_sender_context kAeadAlgorithmKeySizeBytes
            responseKeyLabel with
        | none =>
            (.error (.aborted "Unable to export client response key."),
              [.ctxNew, .setupSender serialized_recipient_public_key info,
                .exportSecret kAeadAlgorithmKeySizeBytes responseKeyLabel])
        | some response_key_bytes =>
            match EVP_AEAD_CTX_new (EVP_hpke_aes_256_gcm env) response_key_bytes
                kAeadAlgorithmKeySizeBytes EVP_AEAD_DEFAULT_TAG_LENGTH with
            | none =>
                (.error (.aborted "Unable to generate AEAD response context."),
                  [.ctxNew, .setupSender serialized_recipient_public_key info,
                    .exportSecret kAeadAlgorithmKeySizeBytes responseKeyLabel,
                    .aeadCtxNew response_key_bytes EVP_AEAD_DEFAULT_TAG_LENGTH])
            | some aead_response_context =>
                match EVP_HPKE_CTX_export hpke_sender_context kAeadNonceSizeBytes
                    responseNonceLabel with
                | none =>
                    (.error (.aborted "Unable to export client response nonce."),
                      [.ctxNew, .setupSender serialized_recipient_public_key info,
                        .exportSecret kAeadAlgorithmKeySizeBytes responseKeyLabel,
                        .aeadCtxNew response_key_bytes EVP_AEAD_DEFAULT_TAG_LENGTH,
                        .exportSecret kAeadNonceSizeBytes responseNonceLabel])
                | some response_nonce =>
                    (.ok { encap_public_key := encap_public_key
                           sender_request_context := { hpke_context := hpke_sender_context }
                           sender_response_context :=
                             { aead_response_context := aead_response_context
                               response_nonce := response_nonce } },
                      [.ctxNew, .setupSender serialized_recipient_public_key info,
                        .exportSecret kAeadAlgorithmKeySizeBytes responseKeyLabel,
                        .aeadCtxNew response_key_bytes EVP_AEAD_DEFAULT_TAG_LENGTH,
                        .exportSecret kAeadNonceSizeBytes responseNonceLabel])

/-- `SetUpBaseSender`: the caller-facing result, without the trace. -/
def SetUpBaseSender (env : PrimEnv) (serialized_recipient_public_key info : Bytes) :
    StatusOr SenderContext :=
  (SetUpBaseSenderTr env serialized_recipient_public_key info).1

/-- The nonce-uniqueness contract of the established AEAD key schedule
(RFC 9180, also the capability contract of `seal` in the spec): sealing
the same plaintext and associated data under two different per-message
nonces never yields the same ciphertext. -/
def NonceInjective (f : Nat → Bytes → Bytes → Option Bytes) : Prop :=
  ∀ n1 n2 pt ad c1 c2, f n1 pt ad = some c1 → f n2 pt ad = some c2 → n1 ≠ n2 → c1 ≠ c2

/-- A concrete exporter-secret stream used by the demonstration
environment. -/
def demoStream : Nat → Nat := fun i => i + 1

/-- A concrete established HPKE context used to exercise the theorems:
sealing tags the ciphertext with its nonce, so nonce uniqueness is
visible in the output. -/
def demoHpkeCtx : HpkeCtx :=
  { baseNonce := 0
    seq := 0
    maxOverhead := 16
    sealFn := fun n _pt _ad => some (n :: List.replicate 15 0)
    exportFn := fun _label => some demoStream }

/-- Request context wrapping `demoHpkeCtx`. -/
def demoRequestCtx : SenderRequestContext := { hpke_context := demoHpkeCtx }

/-- `demoRequestCtx` after one successful seal. -/
def demoRequestCtx1 : SenderRequestContext :=
  { hpke_context := { demoHpkeCtx with seq := 1 } }

/-- `demoRequestCtx` after two successful seals. -/
def demoRequestCtx2 : SenderRequestContext :=
  { hpke_context := { demoHpkeCtx with seq := 2 } }

/-- A concrete response context: decryption strips a 16-byte tag. -/
def demoResponseCtx : SenderResponseContext :=
  { aead_response_context :=
      { openFn := fun _nonce ct _ad => some (ct.drop 16)
        tagLen := 16
        nonceLen := 12 }
    response_nonce := (List.range 12).map demoStream }

/-- A concrete primitive environment in which every operation
succeeds. -/
def demoEnv : PrimEnv :=
  { ctxNewOk := true
    encapsulate := fun _pk _info => some (List.replicate 32 7, demoHpkeCtx)
    aeadNewOk := fun _ => true
    aeadOpenWith := fun _key _nonce ct _ad => some (ct.drop 16) }

/-- The sender context produced by `SetUpBaseSender` in `demoEnv` on a
32-byte recipient key. -/
def demoSenderCtx : SenderContext :=
  { encap_public_key := List.replicate 32 7
    sender_request_context := { hpke_context := { demoHpkeCtx with seq := 0 } }
    sender_response_context :=
      { aead_response_context :=
          { openFn :=
              demoEnv.aeadOpenWith ((List.range kAeadAlgorithmKeySizeBytes).map demoStream)
            tagLen := kAesGcmFullTagSizeBytes
            nonceLen := kAeadNonceSizeBytes }
        response_nonce := (List.range kAeadNonceSizeBytes).map demoStream } }

/-! ## Helper lemmas -/

/-- Resizing the output buffer to the written length recovers exactly
the bytes the primitive wrote. -/
theorem writeBytes_take (buf src : Bytes) : (writeBytes buf src).take src.length = src := by
  simp [writeBytes]

/-- Inversion for a successful `EVP_HPKE_CTX_seal`: the key schedule
was invoked on the nonce `base_nonce XOR seq`, the output fits the
caller's buffer, and the context advanced its counter by one. -/
theorem seal_some_spec (hctx : HpkeCtx) (max_out_len : Nat) (pt ad ct : Bytes)
    (hctx2 : HpkeCtx)
    (h : EVP_HPKE_CTX_seal hctx max_out_len pt ad = some (ct, hctx2)) :
    hctx.sealFn (Nat.xor hctx.baseNonce hctx.seq) pt ad = some ct ∧
    ct.length ≤ max_out_len ∧
    hctx2 = { hctx with seq := hctx.seq + 1 } := by
  unfold EVP_HPKE_CTX_seal at h
  split at h
  · rcases hs : hctx.sealFn (Nat.xor hctx.baseNonce hctx.seq) pt ad with _ | ct0
    · rw [hs] at h; exact absurd h (by simp)
    · rw [hs] at h
      simp only [] at h
      split at h
      · rw [Option.some.injEq, Prod.mk.injEq] at h
        obtain ⟨h1, h2⟩ := h
        subst h1; subst h2
        exact ⟨rfl, by assumption, rfl⟩
      · exact absurd h (by simp)
  · exact absurd h (by simp)

/-- Inversion for a successful `EVP_AEAD_CTX_open`: the plaintext is
the primitive's output and fits the caller's buffer, and the nonce had
the algorithm's length. -/
theorem open_some_spec (actx : AeadCtx) (max_out_len : Nat) (nonce ct ad pt : Bytes)
    (h : EVP_AEAD_CTX_open actx max_out_len nonce ct ad = some pt) :
    actx.openFn nonce ct ad = some pt ∧ pt.length ≤ max_out_len ∧
    nonce.length = actx.nonceLen := by
  unfold EVP_AEAD_CTX_open at h
  split at h
  · rcases hs : actx.openFn nonce ct ad with _ | pt0
    · rw [hs] at h; exact absurd h (by simp)
    · rw [hs] at h
      simp only [] at h
      split at h
      · rw [Option.some.injEq] at h
        subst h
        exact ⟨rfl, by assumption, by assumption⟩
      · exact absurd h (by simp)
  · exact absurd h (by simp)

/-- Inversion for a successful `Seal`: the returned ciphertext is the
key schedule's output under the nonce `base_nonce XOR seq`, it is
bounded by the allocated buffer, and the surviving context has the
same key schedule and base nonce with the counter advanced by one. -/
theorem Seal_ok_inv (rctx rctx' : SenderRequestContext) (pt ad ct : Bytes)
    (h : rctx.Seal pt ad = (.ok ct, rctx')) :
    rctx.hpke_context.sealFn
        (Nat.xor rctx.hpke_context.baseNonce rctx.hpke_context.seq) pt ad = some ct ∧
    rctx'.hpke_context.baseNonce = rctx.hpke_context.baseNonce ∧
    rctx'.hpke_context.seq = rctx.hpke_context.seq + 1 ∧
    rctx'.hpke_context.sealFn = rctx.hpke_context.sealFn ∧
    ct.length ≤ rctx.hpke_context.maxOverhead + pt.length := by
  unfold SenderRequestContext.Seal at h
  dsimp only at h
  rcases hs : EVP_HPKE_CTX_seal rctx.hpke_context
      (EVP_HPKE_CTX_max_overhead rctx.hpke_context + pt.length) pt ad with _ | ⟨ct0, hctx2⟩
  · rw [hs] at h
    simp only [] at h
    exact absurd h (by simp)
  · rw [hs] at h
    simp only [] at h
    rw [Prod.mk.injEq] at h
    obtain ⟨h1, h2⟩ := h
    rw [writeBytes_take, Except.ok.injEq] at h1
    subst h1
    subst h2
    obtain ⟨hcall, hle, hctx2eq⟩ := seal_some_spec _ _ _ _ _ _ hs
    subst hctx2eq
    exact ⟨hcall, rfl, rfl, rfl, hle⟩

/-- Inversion for `EVP_AEAD_CTX_new` at the default tag length: the
resulting context keeps the algorithm's full tag length and nonce
length, and its open behaviour is the algorithm keyed by `key`. -/
theorem aead_new_default_tag_spec (alg : AeadAlg) (key : Bytes) (key_len : Nat)
    (actx : AeadCtx)
    (h : EVP_AEAD_CTX_new alg key key_len EVP_AEAD_DEFAULT_TAG_LENGTH = some actx) :
    actx.tagLen = alg.maxTagLen ∧ actx.nonceLen = alg.nonceLen ∧
    actx.openFn = alg.openWith key := by
  unfold EVP_AEAD_CTX_new at h
  split at h
  · rw [Option.some.injEq] at h
    subst h
    simp [EVP_AEAD_DEFAULT_TAG_LENGTH]
  · exact absurd h (by simp)

/-! ## Claim theorems -/

/-- Claim C7: for every response-context state and associated data,
`Open` on an empty ciphertext fails with `InvalidArgument`, leaves the
context unchanged, and its empty primitive trace shows that it returns
before invoking the AEAD primitive. -/
theorem open_empty_ciphertext_invalid_argument
    (sctx : SenderResponseContext) (associated_data : Bytes) :
    sctx.Open [] associated_data =
      (.error (.invalidArgument "No ciphertext was provided."), sctx, []) := rfl

/-- Claim C10: with an empty recipient key, `SetUpBaseSender` returns
`InvalidArgument` before any primitive-library operation: the trace of
primitive calls is empty, so no HPKE context was created, no
encapsulation or export was performed, and no AEAD context was
allocated. -/
theorem setup_empty_key_no_primitive_calls (env : PrimEnv) (info : Bytes) :
    SetUpBaseSenderTr env [] info =
      (.error (.invalidArgument "No key was provided."), []) := rfl

/-- Claim C8: `Open` never mutates the `ResponseContext`: the returned
context is the input context, any primitive invocation uses the single
stored nonce, and repeating the call on the returned context yields
the identical result, so the same invalid ciphertext fails identically
every time. -/
theorem open_no_mutation (sctx : SenderResponseContext) (ct ad : Bytes) :
    (sctx.Open ct ad).2.1 = sctx ∧
    ((sctx.Open ct ad).2.1).Open ct ad = sctx.Open ct ad ∧
    (sctx.Open ct ad).2.2 =
      (if ct.length = 0 then []
       else [.aeadOpen sctx.response_nonce ct ad]) := by
  have h1 : (sctx.Open ct ad).2.1 = sctx := by
    unfold SenderResponseContext.Open
    split
    · rfl
    · split <;> rfl
  refine ⟨h1, by rw [h1], ?_⟩
  unfold SenderResponseContext.Open
  split
  · simp [*]
  · split <;> simp [*]

/-- Claim C5: `Seal` sizes its output buffer as the plaintext length
plus the AEAD's fixed per-message overhead, so a successful ciphertext
is the primitive's output truncated to the written length and bounded
by that size; a primitive failure surfaces as `Aborted` with no
output. -/
theorem seal_buffer_and_errors (rctx : SenderRequestContext) (pt ad : Bytes) :
    (∀ s, (rctx.Seal pt ad).1 = .error s → s = .aborted "Failed to seal request") ∧
    (∀ ct, (rctx.Seal pt ad).1 = .ok ct →
        ct.length ≤ EVP_HPKE_CTX_max_overhead rctx.hpke_context + pt.length ∧
        ∃ hctx2, EVP_HPKE_CTX_seal rctx.hpke_context
            (EVP_HPKE_CTX_max_overhead rctx.hpke_context + pt.length) pt ad =
          some (ct, hctx2)) := by
  constructor
  · intro s hs
    unfold SenderRequestContext.Seal at hs
    dsimp only at hs
    split at hs
    · rw [Prod.fst, Except.error.injEq] at hs
      exact hs.symm
    · exact absurd hs (by simp)
  · intro ct hct
    unfold SenderRequestContext.Seal at hct
    dsimp only at hct
    rcases hs : EVP_HPKE_CTX_seal rctx.hpke_context
        (EVP_HPKE_CTX_max_overhead rctx.hpke_context + pt.length) pt ad with _ | ⟨ct0, hctx2⟩
    · rw [hs] at hct
      exact absurd hct (by simp)
    · rw [hs] at hct
      simp only [] at hct
      rw [writeBytes_take, Except.ok.injEq] at hct
      subst hct
      obtain ⟨_, hle, _⟩ := seal_some_spec _ _ _ _ _ _ hs
      exact ⟨by simpa [EVP_HPKE_CTX_max_overhead] using hle, hctx2, rfl⟩

/-- Claim C5 witness: sealing a 4-byte plaintext in the demonstration
context returns the primitive's 16-byte ciphertext, within the 16 + 4
byte buffer. -/
theorem seal_buffer_and_errors_witness :
    (0 :: List.replicate 15 0 : Bytes).length ≤
      EVP_HPKE_CTX_max_overhead demoRequestCtx.hpke_context +
        (List.replicate 4 9 : Bytes).length :=
  ((seal_buffer_and_errors demoRequestCtx (List.replicate 4 9) []).2
      (0 :: List.replicate 15 0) rfl).1

/-- Claim C6: for a non-empty ciphertext, a successful `Open` returns
exactly the primitive's plaintext, which fits the buffer sized to the
ciphertext length (so it is never longer than the ciphertext) and was
decrypted under the stored nonce; every failure is the single
`Aborted` decryption error, with no partial output. -/
theorem open_result_bounds (sctx : SenderResponseContext) (ct ad : Bytes)
    (hne : ct.length ≠ 0) :
    (∀ pt, (sctx.Open ct ad).1 = .ok pt →
        pt.length ≤ ct.length ∧
        EVP_AEAD_CTX_open sctx.aead_response_context ct.length
          sctx.response_nonce ct ad = some pt) ∧
    (∀ s, (sctx.Open ct ad).1 = .error s →
        s = .aborted "Unable to decrypt response message") := by
  constructor
  · intro pt hpt
    unfold SenderResponseContext.Open at hpt
    rw [if_neg hne] at hpt
    dsimp only at hpt
    rcases hs : EVP_AEAD_CTX_open sctx.aead_response_context ct.length
        sctx.response_nonce ct ad with _ | pt0
    · rw [hs] at hpt
      exact absurd hpt (by simp)
    · rw [hs] at hpt
      simp only [] at hpt
      rw [writeBytes_take, Except.ok.injEq] at hpt
      subst hpt
      obtain ⟨_, hle, _⟩ := open_some_spec _ _ _ _ _ _ hs
      exact ⟨hle, rfl⟩
  · intro s hserr
    unfold SenderResponseContext.Open at hserr
    rw [if_neg hne] at hserr
    dsimp only at hserr
    rcases hs : EVP_AEAD_CTX_open sctx.aead_response_context ct.length
        sctx.response_nonce ct ad with _ | pt0
    · rw [hs] at hserr
      simp only [] at hserr
      rw [Except.error.injEq] at hserr
      exact hserr.symm
    · rw [hs] at hserr
      exact absurd hserr (by simp)

/-- Claim C6 witness: opening a concrete 20-byte ciphertext in the
demonstration response context yields a 4-byte plaintext, within the
ciphertext-sized buffer. -/
theorem open_result_bounds_witness :
    (List.replicate 4 3 : Bytes).length ≤ (List.replicate 20 3 : Bytes).length :=
  ((open_result_bounds demoResponseCtx (List.replicate 20 3) [] (by decide)).1
      (List.replicate 4 3) rfl).1

/-- Claim C2: under the nonce-uniqueness contract of the established
key schedule, two consecutive successful seals of the same plaintext
and associated data under one `RequestContext` return different
ciphertexts, because each successful seal advances the private
sequence counter (by one per call), so the RFC 9180 per-message nonce
`base_nonce XOR seq` is never reused. -/
theorem sequential_seals_distinct (rctx rctx1 rctx2 : SenderRequestContext)
    (pt ad ct1 ct2 : Bytes)
    (hinj : NonceInjective rctx.hpke_context.sealFn)
    (h1 : rctx.Seal pt ad = (.ok ct1, rctx1))
    (h2 : rctx1.Seal pt ad = (.ok ct2, rctx2)) :
    ct1 ≠ ct2 ∧
    rctx1.hpke_context.seq = rctx.hpke_context.seq + 1 ∧
    rctx2.hpke_context.seq = rctx.hpke_context.seq + 2 := by
  obtain ⟨hcall1, hbase1, hseq1, hfn1, _⟩ := Seal_ok_inv _ _ _ _ _ h1
  obtain ⟨hcall2, hbase2, hseq2, hfn2, _⟩ := Seal_ok_inv _ _ _ _ _ h2
  rw [hfn1, hbase1, hseq1] at hcall2
  refine ⟨?_, hseq1, by omega⟩
  have hnon : Nat.xor rctx.hpke_context.baseNonce rctx.hpke_context.seq ≠
      Nat.xor rctx.hpke_context.baseNonce (rctx.hpke_context.seq + 1) := by
    intro hx
    exact Nat.succ_ne_self rctx.hpke_context.seq (Nat.xor_right_injective hx).symm
  exact hinj _ _ _ _ _ _ hcall1 hcall2 hnon

/-- Claim C2 witness: in the demonstration context the first two seals
of the empty message produce ciphertexts tagged with nonces 0 and 1,
which differ, and the sequence counter advances 0 → 1 → 2. -/
theorem sequential_seals_distinct_witness :
    (0 :: List.replicate 15 0 : Bytes) ≠ 1 :: List.replicate 15 0 ∧
    demoRequestCtx1.hpke_context.seq = demoRequestCtx.hpke_context.seq + 1 ∧
    demoRequestCtx2.hpke_context.seq = demoRequestCtx.hpke_context.seq + 2 :=
  sequential_seals_distinct demoRequestCtx demoRequestCtx1 demoRequestCtx2 [] []
    (0 :: List.replicate 15 0) (1 :: List.replicate 15 0)
    (by
      intro n1 n2 pt ad c1 c2 hc1 hc2 hne heq
      simp only [demoRequestCtx, demoHpkeCtx, Option.some.injEq] at hc1 hc2
      rw [← hc1, ← hc2] at heq
      injection heq with hh _
      exact hne hh)
    rfl rfl

/-- Full inversion of a successful `SetUpBaseSenderTr` run: every
primitive step succeeded, the resulting bundle is determined by the
primitive outcomes, and the trace lists the five primitive calls in
source order. -/
theorem setup_ok_inv (env : PrimEnv) (pk info : Bytes) (sctx : SenderContext)
    (tr : List PrimEvent)
    (h : SetUpBaseSenderTr env pk info = (.ok sctx, tr)) :
    ∃ enc hctx fk fn,
      pk.length ≠ 0 ∧
      env.ctxNewOk = true ∧
      env.encapsulate pk info = some (enc, hctx) ∧
      enc.length ≤ EVP_HPKE_MAX_ENC_LENGTH ∧
      hctx.exportFn responseKeyLabel = some fk ∧
      hctx.exportFn responseNonceLabel = some fn ∧
      env.aeadNewOk ((List.range kAeadAlgorithmKeySizeBytes).map fk) = true ∧
      sctx = { encap_public_key := enc
               sender_request_context := { hpke_context := { hctx with seq := 0 } }
               sender_response_context :=
                 { aead_response_context :=
                     { openFn :=
                         env.aeadOpenWith ((List.range kAeadAlgorithmKeySizeBytes).map fk)
                       tagLen := kAesGcmFullTagSizeBytes
                       nonceLen := kAeadNonceSizeBytes }
                   response_nonce := (List.range kAeadNonceSizeBytes).map fn } } ∧
      tr = [.ctxNew, .setupSender pk info,
            .exportSecret kAeadAlgorithmKeySizeBytes responseKeyLabel,
            .aeadCtxNew ((List.range kAeadAlgorithmKeySizeBytes).map fk)
              EVP_AEAD_DEFAULT_TAG_LENGTH,
            .exportSecret kAeadNonceSizeBytes responseNonceLabel] := by
  unfold SetUpBaseSenderTr at h
  dsimp only at h
  split at h
  · exact absurd h (by simp)
  · split at h
    · exact absurd h (by simp)
    · rcases hsetup : EVP_HPKE_CTX_setup_sender env
          (List.replicate EVP_HPKE_MAX_ENC_LENGTH 0).length pk info with _ | ⟨enc, hsc⟩
      · rw [hsetup] at h
        exact absurd h (by simp)
      · rw [hsetup] at h
        simp only [] at h
        rcases hkey : EVP_HPKE_CTX_export hsc kAeadAlgorithmKeySizeBytes
            responseKeyLabel with _ | rkb
        · rw [hkey] at h
          exact absurd h (by simp)
        · rw [hkey] at h
          simp only [] at h
          rcases haead : EVP_AEAD_CTX_new (EVP_hpke_aes_256_gcm env) rkb
              kAeadAlgorithmKeySizeBytes EVP_AEAD_DEFAULT_TAG_LENGTH with _ | actx
          · rw [haead] at h
            exact absurd h (by simp)
          · rw [haead] at h
            simp only [] at h
            rcases hnon : EVP_HPKE_CTX_export hsc kAeadNonceSizeBytes
                responseNonceLabel with _ | rnb
            · rw [hnon] at h
              exact absurd h (by simp)
            · rw [hnon] at h
              simp only [] at h
              rw [Prod.mk.injEq, Except.ok.injEq] at h
              obtain ⟨hsctx, htr⟩ := h
              -- invert the setup call
              unfold EVP_HPKE_CTX_setup_sender at hsetup
              rcases hencap : env.encapsulate pk info with _ | ⟨enc0, hctx0⟩
              · rw [hencap] at hsetup
                exact absurd hsetup (by simp)
              · rw [hencap] at hsetup
                simp only [] at hsetup
                split at hsetup
                · rw [Option.some.injEq, Prod.mk.injEq] at hsetup
                  obtain ⟨henc0, hhsc⟩ := hsetup
                  subst henc0
                  subst hhsc
                  -- invert the two exports
                  unfold EVP_HPKE_CTX_export at hkey hnon
                  dsimp only at hkey hnon
                  rcases hfk : hctx0.exportFn responseKeyLabel with _ | fk
                  · rw [hfk] at hkey
                    exact absurd hkey (by simp)
                  · rw [hfk] at hkey
                    simp only [Option.some.injEq] at hkey
                    subst hkey
                    rcases hfn : hctx0.exportFn responseNonceLabel with _ | fn
                    · rw [hfn] at hnon
                      exact absurd hnon (by simp)
                    · rw [hfn] at hnon
                      simp only [Option.some.injEq] at hnon
                      subst hnon
                      -- invert the AEAD context construction
                      unfold EVP_AEAD_CTX_new at haead
                      split at haead
                      · rw [Option.some.injEq] at haead
                        subst haead
                        refine ⟨enc0, hctx0, fk, fn, by assumption, ?_, rfl, ?_, hfk,
                          hfn, ?_, ?_, ?_⟩
                        · cases hb : env.ctxNewOk
                          · exact absurd hb (by assumption)
                          · rfl
                        · simp only [List.length_replicate] at *
                          assumption
                        · rename_i hcond
                          exact hcond.2.2.2
                        · rw [← hsctx]
                          simp [writeBytes_take, EVP_hpke_aes_256_gcm,
                            EVP_AEAD_DEFAULT_TAG_LENGTH]
                        · rw [← htr]
                      · exact absurd haead (by simp)
                · exact absurd hsetup (by simp)

/-- Inversion of a failing `SetUpBaseSenderTr` run: the only
`InvalidArgument` failure is the empty-key rejection, and every other
failure is `Aborted` with one of the five setup failure messages. -/
theorem setup_error_inv (env : PrimEnv) (pk info : Bytes) (s : Status)
    (tr : List PrimEvent)
    (h : SetUpBaseSenderTr env pk info = (.error s, tr)) :
    (pk.length = 0 ∧ s = .invalidArgument "No key was provided.") ∨
    (pk.length ≠ 0 ∧ ∃ m, s = .aborted m ∧ m ∈ kSetupAbortMessages) := by
  unfold SetUpBaseSenderTr at h
  dsimp only at h
  split at h
  · rw [Prod.mk.injEq, Except.error.injEq] at h
    exact Or.inl ⟨by assumption, h.1.symm⟩
  · refine Or.inr ⟨by assumption, ?_⟩
    split at h
    · rw [Prod.mk.injEq, Except.error.injEq] at h
      exact ⟨_, h.1.symm, by simp [kSetupAbortMessages]⟩
    · split at h
      · rw [Prod.mk.injEq, Except.error.injEq] at h
        exact ⟨_, h.1.symm, by simp [kSetupAbortMessages]⟩
      · split at h
        · rw [Prod.mk.injEq, Except.error.injEq] at h
          exact ⟨_, h.1.symm, by simp [kSetupAbortMessages]⟩
        · split at h
          · rw [Prod.mk.injEq, Except.error.injEq] at h
            exact ⟨_, h.1.symm, by simp [kSetupAbortMessages]⟩
          · split at h
            · rw [Prod.mk.injEq, Except.error.injEq] at h
              exact ⟨_, h.1.symm, by simp [kSetupAbortMessages]⟩
            · exact absurd h (by simp)

/-- Claim C9: whenever the primitive library operates normally (context
allocation succeeds, the key encapsulation against the given recipient
key succeeds with an encapsulated key that fits the output buffer, the
two exports succeed and the AEAD context can be keyed),
`SetUpBaseSender` succeeds, and the returned `encapsulated_public_key`
is exactly the primitive's encapsulated key, resized to the reported
length — in particular non-empty. -/
theorem setup_valid_key_succeeds (env : PrimEnv) (pk info enc : Bytes) (hctx : HpkeCtx)
    (fk fn : Nat → Nat)
    (hpk : pk.length ≠ 0)
    (hnew : env.ctxNewOk = true)
    (henc : env.encapsulate pk info = some (enc, hctx))
    (hlen : enc.length ≤ EVP_HPKE_MAX_ENC_LENGTH)
    (hpos : 0 < enc.length)
    (hkey : hctx.exportFn responseKeyLabel = some fk)
    (haead : env.aeadNewOk ((List.range kAeadAlgorithmKeySizeBytes).map fk) = true)
    (hnon : hctx.exportFn responseNonceLabel = some fn) :
    SetUpBaseSender env pk info = .ok
      { encap_public_key := enc
        sender_request_context := { hpke_context := { hctx with seq := 0 } }
        sender_response_context :=
          { aead_response_context :=
              { openFn := env.aeadOpenWith ((List.range kAeadAlgorithmKeySizeBytes).map fk)
                tagLen := kAesGcmFullTagSizeBytes
                nonceLen := kAeadNonceSizeBytes }
            response_nonce := (List.range kAeadNonceSizeBytes).map fn } } ∧
    enc ≠ [] := by
  constructor
  · unfold SetUpBaseSender SetUpBaseSenderTr EVP_HPKE_CTX_setup_sender
      EVP_HPKE_CTX_export EVP_AEAD_CTX_new
    simp [hpk, hnew, henc, hlen, hkey, hnon, haead, writeBytes_take,
      EVP_hpke_aes_256_gcm]
  · exact List.length_pos.mp hpos

/-- Claim C9 witness: in the demonstration environment, a 32-byte
recipient key yields a successful setup whose encapsulated key is the
32-byte value reported by the primitive. -/
theorem setup_valid_key_succeeds_witness :
    SetUpBaseSender demoEnv (List.replicate 32 1) [] = .ok demoSenderCtx ∧
    (List.replicate 32 7 : Bytes) ≠ [] :=
  setup_valid_key_succeeds demoEnv (List.replicate 32 1) [] (List.replicate 32 7)
    demoHpkeCtx demoStream demoStream (by decide) rfl rfl (by decide) (by decide)
    rfl rfl rfl

/-- Claim C3: every successfully constructed response AEAD context
keeps the full-length AES-GCM authentication tag: `SetUpBaseSender`
passes `EVP_AEAD_DEFAULT_TAG_LENGTH` (the value zero, meaning
"default", not a zero-length truncation), so the effective tag length
is the full 16 bytes and never zero. -/
theorem response_aead_full_tag (env : PrimEnv) (pk info : Bytes) (sctx : SenderContext)
    (h : SetUpBaseSender env pk info = .ok sctx) :
    sctx.sender_response_context.aead_response_context.tagLen = kAesGcmFullTagSizeBytes ∧
    sctx.sender_response_context.aead_response_context.tagLen ≠ 0 ∧
    ∃ key, PrimEvent.aeadCtxNew key EVP_AEAD_DEFAULT_TAG_LENGTH ∈
        (SetUpBaseSenderTr env pk info).2 := by
  rcases hTr : SetUpBaseSenderTr env pk info with ⟨res, tr⟩
  rw [SetUpBaseSender, hTr] at h
  dsimp only at h
  subst h
  obtain ⟨enc, hctx, fk, fn, -, -, -, -, -, -, -, hsctx, htr⟩ :=
    setup_ok_inv env pk info sctx tr hTr
  subst hsctx
  refine ⟨rfl, by simp [kAesGcmFullTagSizeBytes], ?_⟩
  dsimp only
  rw [htr]
  exact ⟨(List.range kAeadAlgorithmKeySizeBytes).map fk, by simp⟩

/-- Claim C3 witness: the response AEAD context built in the
demonstration environment carries the full 16-byte tag length. -/
theorem response_aead_full_tag_witness :
    demoSenderCtx.sender_response_context.aead_response_context.tagLen =
      kAesGcmFullTagSizeBytes :=
  (response_aead_full_tag demoEnv (List.replicate 32 1) [] demoSenderCtx rfl).1

/-- Claim C1: on every successful setup the primitive-call trace is
exactly: context creation, key encapsulation, the 32-byte export
labelled `"response_key"`, construction of the response AEAD context
keyed by that exported secret, and the 12-byte export labelled
`"response_nonce"` — so both exports complete before the HPKE context
is handed to the `RequestContext`, whose sequence counter is still
zero at hand-off (no seal has touched it, and exporting from it still
yields the same secrets). -/
theorem setup_exports_before_handoff (env : PrimEnv) (pk info : Bytes)
    (sctx : SenderContext)
    (h : SetUpBaseSender env pk info = .ok sctx) :
    ∃ key,
      (SetUpBaseSenderTr env pk info).2 =
        [.ctxNew, .setupSender pk info,
         .exportSecret kAeadAlgorithmKeySizeBytes responseKeyLabel,
         .aeadCtxNew key EVP_AEAD_DEFAULT_TAG_LENGTH,
         .exportSecret kAeadNonceSizeBytes responseNonceLabel] ∧
      key.length = kAeadAlgorithmKeySizeBytes ∧
      EVP_HPKE_CTX_export sctx.sender_request_context.hpke_context
          kAeadAlgorithmKeySizeBytes responseKeyLabel = some key ∧
      sctx.sender_response_context.aead_response_context.openFn =
        env.aeadOpenWith key ∧
      EVP_HPKE_CTX_export sctx.sender_request_context.hpke_context
          kAeadNonceSizeBytes responseNonceLabel =
        some sctx.sender_response_context.response_nonce ∧
      sctx.sender_response_context.response_nonce.length = kAeadNonceSizeBytes ∧
      sctx.sender_request_context.hpke_context.seq = 0 := by
  rcases hTr : SetUpBaseSenderTr env pk info with ⟨res, tr⟩
  rw [SetUpBaseSender, hTr] at h
  dsimp only at h
  subst h
  obtain ⟨enc, hctx, fk, fn, -, -, -, -, hfk, hfn, -, hsctx, htr⟩ :=
    setup_ok_inv env pk info sctx tr hTr
  subst hsctx
  refine ⟨(List.range kAeadAlgorithmKeySizeBytes).map fk, ?_, by simp, ?_, rfl, ?_, by simp, rfl⟩
  · dsimp only
    exact htr
  · unfold EVP_HPKE_CTX_export
    dsimp only
    rw [hfk]
  · unfold EVP_HPKE_CTX_export
    dsimp only
    rw [hfn]

/-- Claim C1 witness: in the demonstration environment the HPKE context
handed to the request context still has its sequence counter at zero,
as extracted from the instantiated theorem. -/
theorem setup_exports_before_handoff_witness :
    demoSenderCtx.sender_request_context.hpke_context.seq = 0 := by
  obtain ⟨key, hk⟩ :=
    setup_exports_before_handoff demoEnv (List.replicate 32 1) [] demoSenderCtx rfl
  exact hk.2.2.2.2.2.2

/-- Claim C4: `SetUpBaseSender` fails with `InvalidArgument` exactly
when the recipient key is empty; every other failure — context
allocation, key encapsulation against a non-empty key (including a
structurally valid but cryptographically rejected one), response-key
export, response AEAD construction, or response-nonce export — is
`Aborted`, each failure point with its own message, and the five
messages are pairwise distinct. -/
theorem setup_error_taxonomy (env : PrimEnv) (pk info : Bytes) :
    (pk.length = 0 → SetUpBaseSender env pk info =
        .error (.invalidArgument "No key was provided.")) ∧
    (∀ m, SetUpBaseSender env pk info = .error (.invalidArgument m) →
        pk.length = 0 ∧ m = "No key was provided.") ∧
    (∀ m, SetUpBaseSender env pk info = .error (.aborted m) →
        pk.length ≠ 0 ∧ m ∈ kSetupAbortMessages) ∧
    kSetupAbortMessages.Nodup ∧
    (pk.length ≠ 0 → env.ctxNewOk = false →
        SetUpBaseSender env pk info =
          .error (.aborted "Unable to generate HPKE sender context")) ∧
    (pk.length ≠ 0 → env.ctxNewOk = true → env.encapsulate pk info = none →
        SetUpBaseSender env pk info =
          .error (.aborted "Unable to setup sender context.")) ∧
    (∀ enc hctx, pk.length ≠ 0 → env.ctxNewOk = true →
        env.encapsulate pk info = some (enc, hctx) →
        enc.length ≤ EVP_HPKE_MAX_ENC_LENGTH →
        hctx.exportFn responseKeyLabel = none →
        SetUpBaseSender env pk info =
          .error (.aborted "Unable to export client response key.")) ∧
    (∀ enc hctx fk, pk.length ≠ 0 → env.ctxNewOk = true →
        env.encapsulate pk info = some (enc, hctx) →
        enc.length ≤ EVP_HPKE_MAX_ENC_LENGTH →
        hctx.exportFn responseKeyLabel = some fk →
        env.aeadNewOk ((List.range kAeadAlgorithmKeySizeBytes).map fk) = false →
        SetUpBaseSender env pk info =
          .error (.aborted "Unable to generate AEAD response context.")) ∧
    (∀ enc hctx fk, pk.length ≠ 0 → env.ctxNewOk = true →
        env.encapsulate pk info = some (enc, hctx) →
        enc.length ≤ EVP_HPKE_MAX_ENC_LENGTH →
        hctx.exportFn responseKeyLabel = some fk →
        env.aeadNewOk ((List.range kAeadAlgorithmKeySizeBytes).map fk) = true →
        hctx.exportFn responseNonceLabel = none →
        SetUpBaseSender env pk info =
          .error (.aborted "Unable to export client response nonce.")) := by
  refine ⟨?_, ?_, ?_, by decide, ?_, ?_, ?_, ?_, ?_⟩
  · intro h0
    simp [SetUpBaseSender, SetUpBaseSenderTr, h0]
  · intro m hm
    rcases hTr : SetUpBaseSenderTr env pk info with ⟨res, tr⟩
    rw [SetUpBaseSender, hTr] at hm
    dsimp only at hm
    subst hm
    rcases setup_error_inv env pk info _ tr hTr with ⟨h0, hs⟩ | ⟨_, m2, hs, _⟩
    · rw [Status.invalidArgument.injEq] at hs
      exact ⟨h0, hs⟩
    · exact absurd hs (by simp)
  · intro m hm
    rcases hTr : SetUpBaseSenderTr env pk info with ⟨res, tr⟩
    rw [SetUpBaseSender, hTr] at hm
    dsimp only at hm
    subst hm
    rcases setup_error_inv env pk info _ tr hTr with ⟨_, hs⟩ | ⟨hpk, m2, hs, hmem⟩
    · exact absurd hs (by simp)
    · rw [Status.aborted.injEq] at hs
      exact ⟨hpk, hs ▸ hmem⟩
  · intro hpk hnew
    simp [SetUpBaseSender, SetUpBaseSenderTr, hpk, hnew]
  · intro hpk hnew henc
    simp [SetUpBaseSender, SetUpBaseSenderTr, EVP_HPKE_CTX_setup_sender,
      hpk, hnew, henc]
  · intro enc hctx hpk hnew henc hlen hkey
    simp [SetUpBaseSender, SetUpBaseSenderTr, EVP_HPKE_CTX_setup_sender,
      EVP_HPKE_CTX_export, hpk, hnew, henc, hlen, hkey]
  · intro enc hctx fk hpk hnew henc hlen hkey haead
    simp [SetUpBaseSender, SetUpBaseSenderTr, EVP_HPKE_CTX_setup_sender,
      EVP_HPKE_CTX_export, EVP_AEAD_CTX_new, EVP_hpke_aes_256_gcm,
      hpk, hnew, henc, hlen, hkey, haead]
  · intro enc hctx fk hpk hnew henc hlen hkey haead hnon
    simp [SetUpBaseSender, SetUpBaseSenderTr, EVP_HPKE_CTX_setup_sender,
      EVP_HPKE_CTX_export, EVP_AEAD_CTX_new, EVP_hpke_aes_256_gcm,
      hpk, hnew, henc, hlen, hkey, haead, hnon]

/-- Claim C4 witness: the empty-key call in the demonstration
environment returns exactly the `InvalidArgument` error. -/
theorem setup_error_taxonomy_witness :
    SetUpBaseSender demoEnv [] [] =
      .error (.invalidArgument "No key was provided.") :=
  (setup_error_taxonomy demoEnv [] []).1 rfl

end OakCrypto
